import Mathlib

/-!
# Verification of the appointment-scheduling core (`postgres.py`)

Shallow embedding of the MCP agenda server's data-access core:
the three-table schema (`patients`, `appointment_types`, `agenda`),
the booking workflow `create_appointment`, the filtered read queries
(`retrieve_data_date`, `retrieve_data_patient`,
`retrieve_data_appointmentType`), and the reporting operations
(`get_week_summary`, `get_agenda_summary`).

Times of day are modelled as minutes since midnight (`Nat < 1440`),
dates as Gregorian `(year, month, day)` triples, and the database as
lists of rows.  Each definition mirrors the corresponding Python
function; comments cite the source lines.
-/

namespace Agenda

/-! ## Calendar dates (`datetime.date`, `timedelta(days=...)`) -/

/-- Gregorian leap-year test. -/
def isLeap (y : Int) : Bool :=
  (y % 4 == 0 && y % 100 != 0) || (y % 400 == 0)

/-- Number of days in a month of a given year. -/
def daysInMonth (y : Int) (m : Nat) : Nat :=
  if m = 2 then (if isLeap y then 29 else 28)
  else if m = 4 ∨ m = 6 ∨ m = 9 ∨ m = 11 then 30
  else 31

/-- A calendar date, as produced by `datetime.strptime(s, "%Y-%m-%d").date()`. -/
structure Date where
  year : Int
  month : Nat
  day : Nat
deriving DecidableEq, Repr

/-- The date is a real Gregorian calendar date. -/
def Date.valid (d : Date) : Bool :=
  1 ≤ d.month && d.month ≤ 12 && 1 ≤ d.day && d.day ≤ daysInMonth d.year d.month

/-- The day after `d` (`d + timedelta(days=1)`). -/
def nextDay (d : Date) : Date :=
  if d.day < daysInMonth d.year d.month then ⟨d.year, d.month, d.day + 1⟩
  else if d.month < 12 then ⟨d.year, d.month + 1, 1⟩
  else ⟨d.year + 1, 1, 1⟩

/-- The day before `d` (`d - timedelta(days=1)`). -/
def prevDay (d : Date) : Date :=
  if 1 < d.day then ⟨d.year, d.month, d.day - 1⟩
  else if 1 < d.month then ⟨d.year, d.month - 1, daysInMonth d.year (d.month - 1)⟩
  else ⟨d.year - 1, 12, 31⟩

/-- `d + timedelta(days=n)` for `n ≥ 0`. -/
def addDays (d : Date) : Nat → Date
  | 0 => d
  | n + 1 => nextDay (addDays d n)

/-- `d - timedelta(days=n)` for `n ≥ 0`. -/
def subDays (d : Date) : Nat → Date
  | 0 => d
  | n + 1 => prevDay (subDays d n)

/-- Calendar order on dates (lexicographic on year, month, day). -/
def dateLE (a b : Date) : Bool :=
  a.year < b.year ||
    (a.year == b.year &&
      (a.month < b.month || (a.month == b.month && a.day ≤ b.day)))

/-- Strict calendar order on dates. -/
def dateLT (a b : Date) : Bool :=
  dateLE a b && !(a == b)

/-- Left-pad the decimal representation of `n` with zeros to `width`
characters (Python's `"{:0Nd}".format`, `strftime` zero-padding). -/
def padNum (width : Nat) (n : Nat) : String :=
  let s := toString n
  String.mk (List.replicate (width - s.length) '0') ++ s

/-- `date.strftime("%Y-%m-%d")`. -/
def formatDate (d : Date) : String :=
  padNum 4 d.year.toNat ++ "-" ++ padNum 2 d.month ++ "-" ++ padNum 2 d.day

/-- Split a character list at every occurrence of `sep`
(`str.split(sep)` on the field separator of a `strptime` format). -/
def splitOnChar (sep : Char) : List Char → List (List Char)
  | [] => [[]]
  | c :: rest =>
    if c == sep then [] :: splitOnChar sep rest
    else
      match splitOnChar sep rest with
      | [] => [[c]]
      | h :: t => (c :: h) :: t

/-- The numeric value of a decimal digit character, `none` otherwise. -/
def digitVal? (c : Char) : Option Nat :=
  if 48 ≤ c.toNat ∧ c.toNat ≤ 57 then some (c.toNat - 48) else none

/-- Read a nonempty all-digit character list as a natural number
(the numeric fields of `strptime`, Python `int()` on digits). -/
def charsToNat? : List Char → Option Nat
  | [] => none
  | l =>
    l.foldl
      (fun acc c =>
        match acc, digitVal? c with
        | some n, some d => some (n * 10 + d)
        | _, _ => none)
      (some 0)

/-- Python `int()` on a string: an optional minus sign followed by
digits; `none` models the raised `ValueError`. -/
def charsToInt? : List Char → Option Int
  | '-' :: rest => (charsToNat? rest).map (fun n => -(n : Int))
  | l => (charsToNat? l).map (fun n => (n : Int))

/-- `datetime.strptime(s, "%Y-%m-%d").date()`: split on `-`, read the
numeric fields, and reject non-calendar dates (`ValueError`). -/
def parseDateStr (s : String) : Option Date :=
  match splitOnChar '-' s.data with
  | [ys, ms, ds] =>
    match charsToNat? ys, charsToNat? ms, charsToNat? ds with
    | some y, some m, some d =>
      if Date.valid ⟨(y : Int), m, d⟩ then some ⟨(y : Int), m, d⟩ else none
    | _, _, _ => none
  | _ => none

/-- `strptime` applied to an optional argument: a `None` argument raises
`TypeError`, a malformed string raises `ValueError`; both are failures. -/
def parseDateOpt : Option String → Option Date
  | none => none
  | some s => parseDateStr s

/-! ## Times of day (`datetime.time`, minutes since midnight) -/

/-- `datetime.strptime(s, "%H:%M").time()`, as minutes since midnight. -/
def parseTimeStr (s : String) : Option Nat :=
  match splitOnChar ':' s.data with
  | [hs, ms] =>
    match charsToNat? hs, charsToNat? ms with
    | some h, some m => if h ≤ 23 && m ≤ 59 then some (h * 60 + m) else none
    | _, _ => none
  | _ => none

/-- `strptime` of an optional time argument (see `parseDateOpt`). -/
def parseTimeOpt : Option String → Option Nat
  | none => none
  | some s => parseTimeStr s

/-- `time.strftime("%H:%M")` for a minutes-since-midnight value. -/
def formatTime (t : Nat) : String :=
  padNum 2 (t / 60) ++ ":" ++ padNum 2 (t % 60)

/-! ## The three-table schema -/

/-- A row of the `patients` table. -/
structure Patient where
  patient_number : String
  name : String
  address : Option String
  phonenumber : Option String
deriving DecidableEq, Repr

/-- A row of the `appointment_types` table.  `appointment_number` is a
database-assigned serial; `hourly_rate` is never set by this core. -/
structure AppointmentType where
  appointment_number : Int
  name : String
  hourly_rate : Option Rat
deriving DecidableEq, Repr

/-- A row of the `agenda` table.  `start_hour`/`end_hour` are times of
day in minutes since midnight. -/
structure AgendaEntry where
  id : Int
  patient_number : String
  appointment_type : Int
  appointment_date : Date
  start_hour : Nat
  end_hour : Nat
deriving DecidableEq, Repr

/-- The database state: the three tables. -/
structure DB where
  patients : List Patient
  appointment_types : List AppointmentType
  agenda : List AgendaEntry
deriving DecidableEq, Repr

/-- The empty database. -/
def DB.empty : DB := ⟨[], [], []⟩

/-- Python truthiness of an `Optional[str]` argument: `None` and `""`
are falsy, every other string is truthy. -/
def pyTruthy : Option String → Bool
  | none => false
  | some s => s ≠ ""

/-! ## Joined rows and generic list machinery for the read queries -/

/-- One row of the eight-column `SELECT` shared by the filter queries:
`agenda LEFT JOIN patients LEFT JOIN appointment_types`.  The joined
columns are optional because the joins are `LEFT`. -/
structure FilterRow where
  patient_name : Option String
  address : Option String
  phonenumber : Option String
  appointment_date : Date
  start_hour : Nat
  end_hour : Nat
  type_appointment : Option String
  hourly_rate : Option Rat
deriving DecidableEq, Repr

/-- `LEFT JOIN patients t2 ON t1.patient_number = t2.patient_number`
and `LEFT JOIN appointment_types t3 ON t1.appointment_type =
t3.appointment_number` applied to one `agenda` row. -/
def joinRow (db : DB) (e : AgendaEntry) : FilterRow :=
  let p := db.patients.find? (fun p => p.patient_number == e.patient_number)
  let t := db.appointment_types.find? (fun t => t.appointment_number == e.appointment_type)
  { patient_name := p.map (·.name)
    address := p.bind (·.address)
    phonenumber := p.bind (·.phonenumber)
    appointment_date := e.appointment_date
    start_hour := e.start_hour
    end_hour := e.end_hour
    type_appointment := t.map (·.name)
    hourly_rate := t.bind (·.hourly_rate) }

/-- Insert into a list sorted by `le` (helper for `sortBy`). -/
def insertSorted (le : α → α → Bool) (x : α) : List α → List α
  | [] => [x]
  | y :: ys => if le x y then x :: y :: ys else y :: insertSorted le x ys

/-- Insertion sort: models SQL `ORDER BY`. -/
def sortBy (le : α → α → Bool) : List α → List α
  | [] => []
  | x :: xs => insertSorted le x (sortBy le xs)

/-- SQL `ILIKE`: case-insensitive `LIKE` pattern match, where `%`
matches any sequence and `_` any single character. -/
def likeMatch : List Char → List Char → Bool
  | [], [] => true
  | [], _ :: _ => false
  | '%' :: ps, [] => likeMatch ps []
  | '%' :: ps, c :: s => likeMatch ps (c :: s) || likeMatch ('%' :: ps) s
  | '_' :: ps, _ :: s => likeMatch ps s
  | '_' :: _, [] => false
  | p :: ps, c :: s => p.toLower == c.toLower && likeMatch ps s
  | _ :: _, [] => false
termination_by ps s => (ps.length, s.length)

/-- `value ILIKE pattern` on strings. -/
def ilike (value pattern : String) : Bool :=
  likeMatch pattern.data value.data

/-- SQL `LIMIT $n` (when present) applied to a result set. -/
def applyLimit (lim : Option Nat) (rows : List α) : List α :=
  match lim with
  | none => rows
  | some n => rows.take n

/-! ## `retrieve_data_date` (postgres.py lines 57-149)

The instrumented return value records, besides the Python return value
(`None` on every failure path), how many queries were sent to the
database and which `return None` site produced a failure. -/

/-- The distinct failure sites of `retrieve_data_date`:
the connection check (line 76-78), the generic exception handlers
(lines 144-149, reached e.g. when `strptime` raises on a missing or
malformed date), and the explicit `at least one of
date_appointment_start or date_appointment_end must be provided` check
(lines 87-89). -/
inductive DateFailBranch where
  | connUnavailable
  | exception
  | atLeastOneMissing
deriving DecidableEq, Repr

/-- The success dictionary built at lines 133-139. -/
structure DateResult where
  status : String
  count : Nat
  date_start : String
  date_end : String
  appointments : List FilterRow
deriving DecidableEq, Repr

/-- Run one date query with an optional already-parsed `LIMIT` value;
a negative limit is rejected by the database (`LIMIT` must be
nonnegative), which the enclosing handler turns into a failure. -/
def runDateQuery (lim : Option Int) (rows : List FilterRow)
    (mk : List FilterRow → DateResult) :
    Option DateResult × Nat × Option DateFailBranch :=
  match lim with
  | none => (some (mk rows), 1, none)
  | some n =>
    if n < 0 then (none, 1, some .exception)
    else (some (mk (rows.take n.toNat)), 1, none)

/-- `retrieve_data_date(ctx, date_appointment_start,
date_appointment_end, limit)`.  Mirrors the Python control flow:
connection check; `strptime` on `date_appointment_start`
unconditionally (line 81 — raises when the argument is `None` or
malformed); `strptime` on `date_appointment_end` only when truthy
(lines 82-83); `int(limit)` when truthy (lines 84-85); then the
`not start and not end` check (line 87), the single-date query
(lines 90-109) or the ordered range query (lines 110-129). -/
def retrieve_data_date (conn : Bool) (db : DB)
    (date_appointment_start date_appointment_end lim : Option String) :
    Option DateResult × Nat × Option DateFailBranch :=
  if conn = false then (none, 0, some .connUnavailable)
  else
    match parseDateOpt date_appointment_start with
    | none => (none, 0, some .exception)
    | some d1 =>
      match (if pyTruthy date_appointment_end
             then (parseDateOpt date_appointment_end).map some
             else some none : Option (Option Date)) with
      | none => (none, 0, some .exception)
      | some d2? =>
        match (if pyTruthy lim
               then (charsToInt? (lim.getD "").data).map some
               else some none : Option (Option Int)) with
        | none => (none, 0, some .exception)
        | some lim? =>
          if !pyTruthy date_appointment_start && !pyTruthy date_appointment_end then
            (none, 0, some .atLeastOneMissing)
          else if !pyTruthy date_appointment_end then
            let rows :=
              (db.agenda.filter (fun e => e.appointment_date == d1)).map (joinRow db)
            runDateQuery lim? rows (fun rs =>
              { status := "success", count := rs.length
                date_start := date_appointment_start.getD ""
                date_end := date_appointment_start.getD ""
                appointments := rs })
          else
            match d2? with
            | none => (none, 0, some .exception)
            | some d2 =>
              let rows :=
                sortBy (fun a b => dateLE a.appointment_date b.appointment_date)
                  ((db.agenda.filter (fun e =>
                      dateLE d1 e.appointment_date && dateLE e.appointment_date d2)).map
                    (joinRow db))
              runDateQuery lim? rows (fun rs =>
                { status := "success", count := rs.length
                  date_start := date_appointment_start.getD ""
                  date_end := date_appointment_end.getD ""
                  appointments := rs })

/-! ## `retrieve_data_patient` (lines 153-236) and
`retrieve_data_appointmentType` (lines 240-330) -/

/-- The success dictionary of the patient filter (lines 216-222). -/
structure PatientResult where
  status : String
  count : Nat
  patient_name : Option String
  patient_number : Option String
  appointments : List FilterRow
deriving DecidableEq, Repr

/-- `retrieve_data_patient(ctx, patient_name, patient_number)`.
The discriminator check (lines 167-169) runs before the connection is
even read; the second component counts queries sent. -/
def retrieve_data_patient (conn : Bool) (db : DB)
    (patient_name patient_number : Option String) :
    Option PatientResult × Nat :=
  if !pyTruthy patient_name && !pyTruthy patient_number then (none, 0)
  else if conn = false then (none, 0)
  else
    let rows :=
      if pyTruthy patient_number then
        (db.agenda.filter (fun e =>
            e.patient_number == patient_number.getD "")).map (joinRow db)
      else
        (db.agenda.map (joinRow db)).filter (fun r =>
          match r.patient_name with
          | some nm => ilike nm (patient_name.getD "")
          | none => false)
    (some { status := "success", count := rows.length
            patient_name := patient_name, patient_number := patient_number
            appointments := rows }, 1)

/-- The success dictionary of the type filter (lines 310-316). -/
structure TypeResult where
  status : String
  count : Nat
  appointment_type : Option String
  appointment_number : Option String
  appointments : List FilterRow
deriving DecidableEq, Repr

/-- `retrieve_data_appointmentType(ctx, appointment_type,
appointment_number, limit)`.  The discriminator check (lines 255-257)
runs first.  The `appointment_number` parameter arrives as a string
and is compared against the integer `agenda.appointment_type` column;
the database-driver marshaling is modelled as decimal conversion, and
`limit` as an already-converted row count. -/
def retrieve_data_appointmentType (conn : Bool) (db : DB)
    (appointment_type appointment_number : Option String)
    (lim : Option Nat) :
    Option TypeResult × Nat :=
  if !pyTruthy appointment_type && !pyTruthy appointment_number then (none, 0)
  else if conn = false then (none, 0)
  else
    let rows :=
      if pyTruthy appointment_number then
        (db.agenda.filter (fun e =>
            toString e.appointment_type == appointment_number.getD "")).map (joinRow db)
      else
        (db.agenda.map (joinRow db)).filter (fun r =>
          match r.type_appointment with
          | some nm => ilike nm (appointment_type.getD "")
          | none => false)
    (some { status := "success", count := (applyLimit lim rows).length
            appointment_type := appointment_type
            appointment_number := appointment_number
            appointments := applyLimit lim rows }, 1)

/-! ## `create_appointment` (lines 620-730)

The whole workflow runs inside `async with conn.transaction():`
(line 654): on any exception the transaction is rolled back and the
handler returns `None`, so either every insert is visible or none is.
-/

/-- Lexicographic strict order on character lists, comparing code
points: the order PostgreSQL uses for `ORDER BY` on these ASCII
`patient_number` strings. -/
def charListLt : List Char → List Char → Bool
  | [], [] => false
  | [], _ :: _ => true
  | _ :: _, [] => false
  | a :: as, b :: bs =>
    decide (a.toNat < b.toNat) || (decide (a.toNat = b.toNat) && charListLt as bs)

/-- Strict string order by code points. -/
def strLt (s t : String) : Bool :=
  charListLt s.data t.data

/-- One step of a running-maximum fold under the strict order `lt`. -/
def maxStep (lt : α → α → Bool) (acc : Option α) (x : α) : Option α :=
  match acc with
  | none => some x
  | some m => some (if lt m x then x else m)

/-- The largest element of a list under the strict order `lt`, `none`
when the list is empty (SQL `max(...)` / `ORDER BY ... DESC LIMIT 1`). -/
def listMax? (lt : α → α → Bool) (l : List α) : Option α :=
  l.foldl (maxStep lt) none

/-- `SELECT patient_number FROM patients ORDER BY patient_number DESC
LIMIT 1` (lines 663-665): the maximum `patient_number` in string
order, `NULL`/`none` when the table is empty. -/
def lastPatientNumber (patients : List Patient) : Option String :=
  listMax? strLt (patients.map (·.patient_number))

/-- Python's `f"{n:03d}"`: decimal representation padded with zeros to
at least three characters, the sign counting toward the width. -/
def pyFormat03d (n : Int) : String :=
  if n < 0 then "-" ++ padNum 2 n.natAbs else padNum 3 n.toNat

/-- Lines 666-669: the next patient number.  `"P001"` when the table
is empty; otherwise `f"P{int(last[1:]) + 1:03d}"`, where a suffix that
`int()` cannot parse raises (`none`). -/
def nextPatientNumber (patients : List Patient) : Option String :=
  match lastPatientNumber patients with
  | none => some "P001"
  | some last =>
    match charsToInt? (last.data.drop 1) with
    | none => none
    | some n => some ("P" ++ pyFormat03d (n + 1))

/-- Lines 655-679: find the patient by exact name or create it with a
freshly allocated number; returns the patient number, the updated
database, and the `newpatient` flag.  `none` models the exception
raised when the number suffix is unparsable. -/
def resolvePatient (db : DB) (patient_name : String)
    (patient_address patient_phone : Option String) :
    Option (String × DB × Bool) :=
  match db.patients.find? (fun p => p.name == patient_name) with
  | some p => some (p.patient_number, db, false)
  | none =>
    match nextPatientNumber db.patients with
    | none => none
    | some pn =>
      some (pn,
        { db with patients :=
            db.patients ++ [⟨pn, patient_name, patient_address, patient_phone⟩] },
        true)

/-- The serial value the database assigns to a new
`appointment_types.appointment_number` (the insert at lines 689-692
relies on the column's own generator): one more than the largest
number present. -/
def nextAppointmentNumber (types : List AppointmentType) : Int :=
  (types.foldl (fun acc t => max acc t.appointment_number) 0) + 1

/-- Lines 681-696: find the appointment type by exact name or insert
it (`hourly_rate` left unset); returns its number and the updated
database. -/
def resolveType (db : DB) (type_name : String) : Int × DB :=
  match db.appointment_types.find? (fun t => t.name == type_name) with
  | some t => (t.appointment_number, db)
  | none =>
    let n := nextAppointmentNumber db.appointment_types
    (n, { db with appointment_types :=
            db.appointment_types ++ [⟨n, type_name, none⟩] })

/-- `SELECT max(id) FROM agenda` (line 708): `NULL`/`none` when the
table is empty. -/
def agendaMaxId (agenda : List AgendaEntry) : Option Int :=
  listMax? (fun a b => decide (a < b)) (agenda.map (·.id))

/-- Line 709: `id_record = id_max + 1 if id_max else 1` — note the
Python truthiness test, under which both `NULL` and `0` yield `1`. -/
def nextAgendaId (agenda : List AgendaEntry) : Int :=
  match agendaMaxId agenda with
  | none => 1
  | some m => if m == 0 then 1 else m + 1

/-- The arguments of `create_appointment` with their Python defaults
(`appointment_type="General Consultation"`, `duration=30`). -/
structure BookArgs where
  patient_name : String
  appointment_date : Option String
  appointment_type : String := "General Consultation"
  start_time : Option String
  duration : Int := 30
  patient_address : Option String := none
  patient_phone : Option String := none
deriving DecidableEq, Repr

/-- The body of the transaction (lines 654-723): resolve the patient,
resolve the type, parse date and start time (line 702-703 — raises on
a missing or malformed argument), compute
`end_dt = start_dt + timedelta(minutes=duration)` whose time of day is
`(start + duration) mod 1440` minutes (line 705), allocate the next
agenda id, and insert the row.  `none` is any raised exception. -/
def createAppointmentTx (db : DB) (a : BookArgs) : Option (AgendaEntry × DB) :=
  match resolvePatient db a.patient_name a.patient_address a.patient_phone with
  | none => none
  | some (pn, db1, _) =>
    let (tn, db2) := resolveType db1 a.appointment_type
    match parseDateOpt a.appointment_date with
    | none => none
    | some d =>
      match parseTimeOpt a.start_time with
      | none => none
      | some st =>
        let en : Nat := (((st : Int) + a.duration).emod 1440).toNat
        let newId := nextAgendaId db2.agenda
        let e : AgendaEntry := ⟨newId, pn, tn, d, st, en⟩
        some (e, { db2 with agenda := db2.agenda ++ [e] })

/-- `create_appointment(ctx, ...)`: connection check (lines 648-652),
then the transaction; an exception rolls the transaction back
(line 654) and the handlers (lines 725-730) return `None`, leaving the
database exactly as it was. -/
def create_appointment (conn : Bool) (db : DB) (a : BookArgs) :
    Option AgendaEntry × DB :=
  if conn = false then (none, db)
  else
    match createAppointmentTx db a with
    | none => (none, db)
    | some (e, db') => (some e, db')

/-! ## `get_week_summary` (lines 386-478) -/

/-- One row of the five-column week query (lines 430-442). -/
structure WeekRow where
  patient_name : Option String
  appointment_date : Date
  start_hour : Nat
  end_hour : Nat
  type_appointment : Option String
deriving DecidableEq, Repr

/-- The week query's join applied to one `agenda` row. -/
def joinWeekRow (db : DB) (e : AgendaEntry) : WeekRow :=
  let p := db.patients.find? (fun p => p.patient_number == e.patient_number)
  let t := db.appointment_types.find? (fun t => t.appointment_number == e.appointment_type)
  { patient_name := p.map (·.name)
    appointment_date := e.appointment_date
    start_hour := e.start_hour
    end_hour := e.end_hour
    type_appointment := t.map (·.name) }

/-- Remove duplicates, keeping first occurrences (Python `set` /
SQL `GROUP BY`, where only the count of distinct keys matters). -/
def dedup [DecidableEq α] : List α → List α
  | [] => []
  | x :: xs => x :: dedup (xs.filter (fun y => y ≠ x))
termination_by l => l.length
decreasing_by
  simp only [List.length_cons]
  exact Nat.lt_succ_of_le (List.length_filter_le _ _)

/-- Histogram of a list of keys: each distinct key with its
multiplicity (the `appointment_types.get(k, 0) + 1` loops at
lines 449-457). -/
def countsBy [DecidableEq α] (keys : List α) : List (α × Nat) :=
  (dedup keys).map (fun k => (k, keys.count k))

/-- Day-of-week via Sakamoto's method, `0 = Sunday … 6 = Saturday`. -/
def dayOfWeek (d : Date) : Nat :=
  let t : List Nat := [0, 3, 2, 5, 0, 3, 5, 1, 4, 6, 2, 4]
  let y : Int := if d.month < 3 then d.year - 1 else d.year
  (((y + y / 4 - y / 100 + y / 400) + (t.getD (d.month - 1) 0) + d.day).emod 7).toNat

/-- `date_trunc('week', d)`: the Monday of `d`'s ISO week. -/
def mondayOf (d : Date) : Date :=
  subDays d ((dayOfWeek d + 6) % 7)

/-- The success dictionary of `get_week_summary` (lines 459-468);
`week_start`/`week_end` are the `strftime('%Y-%m-%d')` strings of
lines 461-462. -/
structure WeekSummary where
  status : String
  week_start : String
  week_end : String
  total_appointments : Nat
  unique_patients : Nat
  appointment_types : List (Option String × Nat)
  daily_counts : List (String × Nat)
  appointments : List WeekRow
deriving DecidableEq, Repr

/-- Lines 429-468: fetch the appointments with
`appointment_date BETWEEN week_start AND week_end` ordered by date
then start hour, and compute the aggregate fields. -/
def buildWeekSummary (db : DB) (week_start week_end : Date) : WeekSummary :=
  let rows :=
    sortBy (fun a b =>
        dateLT a.appointment_date b.appointment_date ||
          (a.appointment_date == b.appointment_date && a.start_hour ≤ b.start_hour))
      ((db.agenda.filter (fun e =>
          dateLE week_start e.appointment_date &&
            dateLE e.appointment_date week_end)).map (joinWeekRow db))
  { status := "success"
    week_start := formatDate week_start
    week_end := formatDate week_end
    total_appointments := rows.length
    unique_patients := (dedup (rows.map (·.patient_name))).length
    appointment_types := countsBy (rows.map (·.type_appointment))
    daily_counts := countsBy (rows.map (fun r => formatDate r.appointment_date))
    appointments := rows }

/-- `get_week_summary(ctx, date, week_number, year)`.  With a truthy
`date` the window is `[date, date + 6 days]` (lines 411-414); with a
truthy `week_number` the window starts at the Monday of that ISO week
of `year` (default: the current year, line 407-408), computed by the
SQL of lines 417-424; with neither, line 426-427 fails. -/
def get_week_summary (conn : Bool) (db : DB) (currentYear : Int)
    (date : Option String) (week_number : Option Int) (year : Option Int) :
    Option WeekSummary :=
  if conn = false then none
  else
    let y := year.getD currentYear
    match date with
    | some s =>
      match parseDateStr s with
      | none => none
      | some d => some (buildWeekSummary db d (addDays d 6))
    | none =>
      match week_number with
      | some w =>
        if w == 0 then none
        else if w < 1 then none
        else
          let ws := mondayOf (addDays ⟨y, 1, 1⟩ (7 * (w.toNat - 1)))
          some (buildWeekSummary db ws (addDays ws 6))
      | none => none

/-! ## `get_agenda_summary` (lines 734-799) -/

/-- `ROUND(x, 2)` on PostgreSQL `numeric`: half away from zero; all
values rounded here are nonnegative, so half-up. -/
def round2 (q : Rat) : Rat :=
  (⌊q * 100 + 1 / 2⌋ : Int) / 100

/-- `SELECT ROUND(AVG(count), 2) FROM (SELECT k, COUNT(*) FROM …
GROUP BY k)`: the per-group row counts for the distinct keys actually
present.  The outer `AVG` is `NULL` (`none`) when there are no
groups. -/
def avgGroupCount [DecidableEq α] (keys : List α) : Option Rat :=
  match dedup keys with
  | [] => none
  | gs => some (round2 ((((gs.map (fun g => keys.count g)).sum : Nat) : Rat) / (gs.length : Rat)))

/-- Python `x or 0` applied to a possibly-`NULL` average
(lines 789-791). -/
def orZero : Option Rat → Rat
  | none => 0
  | some q => q

/-- The summary dictionary of lines 786-792. -/
structure AgendaSummary where
  total_appointments : Nat
  total_patients : Nat
  daily_average : Rat
  weekly_average : Rat
  monthly_average : Rat
deriving DecidableEq, Repr

/-- `CURRENT_DATE - INTERVAL '30 days'` etc.: the daily cutoff is 30
days back, the weekly cutoff 12 weeks = 84 days back, the monthly
cutoff 12 months back (same day of month, clamped to month length). -/
def monthlyCutoff (today : Date) : Date :=
  ⟨today.year - 1, today.month, min today.day (daysInMonth (today.year - 1) today.month)⟩

/-- The grouping keys of the daily average: the dates of the agenda
rows passing the `appointment_date >= CURRENT_DATE - 30 days` filter
(note: no upper bound — future dates qualify). -/
def dailyKeys (db : DB) (today : Date) : List Date :=
  (db.agenda.filter (fun e => dateLE (subDays today 30) e.appointment_date)).map
    (·.appointment_date)

/-- The grouping keys of the weekly average:
`DATE_TRUNC('week', appointment_date)` over rows with
`appointment_date >= CURRENT_DATE - 12 weeks`. -/
def weeklyKeys (db : DB) (today : Date) : List Date :=
  (db.agenda.filter (fun e => dateLE (subDays today 84) e.appointment_date)).map
    (fun e => mondayOf e.appointment_date)

/-- The grouping keys of the monthly average:
`DATE_TRUNC('month', appointment_date)` over rows with
`appointment_date >= CURRENT_DATE - 12 months`. -/
def monthlyKeys (db : DB) (today : Date) : List (Int × Nat) :=
  (db.agenda.filter (fun e => dateLE (monthlyCutoff today) e.appointment_date)).map
    (fun e => (e.appointment_date.year, e.appointment_date.month))

/-- `get_agenda_summary(ctx)` (lines 734-799): row counts plus the
three rolling averages, each `AVG` over the non-empty buckets of its
window and `or 0` when `NULL`. -/
def get_agenda_summary (conn : Bool) (db : DB) (today : Date) :
    Option AgendaSummary :=
  if conn = false then none
  else
    some { total_appointments := db.agenda.length
           total_patients := db.patients.length
           daily_average := orZero (avgGroupCount (dailyKeys db today))
           weekly_average := orZero (avgGroupCount (weeklyKeys db today))
           monthly_average := orZero (avgGroupCount (monthlyKeys db today)) }

/-! ## Concrete fixtures used by witnesses and counterexamples -/

/-- A well-formed booking request (the request of `test.py`). -/
def stdArgs : BookArgs :=
  { patient_name := "Jae Burli", appointment_date := some "2025-07-02"
    start_time := some "09:30" }

/-- A booking request with no appointment date: `strptime(None, ...)`
raises inside the transaction. -/
def noDateArgs : BookArgs :=
  { patient_name := "X", appointment_date := none, start_time := some "09:30" }

/-- A booking request with an empty patient name and a negative
duration. -/
def invalidArgs : BookArgs :=
  { patient_name := "", appointment_date := some "2025-07-02"
    start_time := some "09:30", duration := -5 }

/-- A 45-minute booking starting at 09:30. -/
def argsC7 : BookArgs :=
  { patient_name := "Jae Burli", appointment_date := some "2025-07-02"
    start_time := some "09:30", duration := 45 }

/-- A database whose agenda holds one entry with id 41. -/
def dbId41 : DB :=
  { patients := [⟨"P001", "Jae Burli", none, none⟩]
    appointment_types := [⟨1, "General Consultation", none⟩]
    agenda := [⟨41, "P001", 1, ⟨2025, 7, 1⟩, 540, 570⟩] }

/-- The entry created by booking `stdArgs` against `dbId41`. -/
def entryId42 : AgendaEntry := ⟨42, "P001", 1, ⟨2025, 7, 2⟩, 570, 600⟩

/-- `dbId41` after booking `stdArgs`. -/
def dbId41' : DB := { dbId41 with agenda := dbId41.agenda ++ [entryId42] }

/-- The entry created by booking `argsC7` against the empty database. -/
def entryC7 : AgendaEntry := ⟨1, "P001", 1, ⟨2025, 7, 2⟩, 570, 615⟩

/-- The empty database after booking `argsC7`. -/
def dbC7' : DB :=
  { patients := [⟨"P001", "Jae Burli", none, none⟩]
    appointment_types := [⟨1, "General Consultation", none⟩]
    agenda := [entryC7] }

/-- A patients table whose allocation already passed the three-digit
range: the string-order maximum of `{P999, P1000}` is `P999`. -/
def dbPastP999 : DB :=
  { patients := [⟨"P999", "Alice", none, none⟩, ⟨"P1000", "Bob", none, none⟩]
    appointment_types := [], agenda := [] }

/-- A booking request for a third, new patient. -/
def carolArgs : BookArgs :=
  { patient_name := "Carol", appointment_date := some "2025-07-02"
    start_time := some "10:00" }

/-- A patients table whose maximum number is `P037`. -/
def dbP037 : DB :=
  { patients := [⟨"P037", "Ann", none, none⟩]
    appointment_types := [], agenda := [] }

/-- The reference day for summary fixtures. -/
def t9 : Date := ⟨2025, 7, 2⟩

/-- A database with a single appointment dated the day after `t9`:
nothing in the trailing 30 days `[t9 - 30, t9]`, one row in the
future. -/
def db9 : DB :=
  { patients := [], appointment_types := []
    agenda := [⟨1, "P001", 1, ⟨2025, 7, 3⟩, 570, 600⟩] }

/-! ## General lemmas: the code-point order on strings -/

theorem charListLt_irrefl : ∀ l, charListLt l l = false
  | [] => rfl
  | a :: as => by simp [charListLt, charListLt_irrefl as, Nat.lt_irrefl]

theorem charListLt_trans :
    ∀ l1 l2 l3, charListLt l1 l2 = true → charListLt l2 l3 = true →
      charListLt l1 l3 = true := by
  intro l1
  induction l1 with
  | nil =>
    intro l2 l3 h1 h2
    cases l2 <;> cases l3 <;> simp_all [charListLt]
  | cons a as ih =>
    intro l2 l3 h1 h2
    cases l2 with
    | nil => simp [charListLt] at h1
    | cons b bs =>
      cases l3 with
      | nil => simp [charListLt] at h2
      | cons c cs =>
        simp only [charListLt, Bool.or_eq_true, Bool.and_eq_true,
          decide_eq_true_eq] at h1 h2 ⊢
        rcases h1 with h1 | ⟨hab, h1⟩
        · rcases h2 with h2 | ⟨hbc, h2⟩
          · exact Or.inl (Nat.lt_trans h1 h2)
          · exact Or.inl (hbc ▸ h1)
        · rcases h2 with h2 | ⟨hbc, h2⟩
          · exact Or.inl (hab ▸ h2)
          · exact Or.inr ⟨hab.trans hbc, ih bs cs h1 h2⟩

theorem charListLt_total :
    ∀ l1 l2, charListLt l1 l2 = true ∨ l1 = l2 ∨ charListLt l2 l1 = true := by
  intro l1
  induction l1 with
  | nil => intro l2; cases l2 <;> simp [charListLt]
  | cons a as ih =>
    intro l2
    cases l2 with
    | nil => simp [charListLt]
    | cons b bs =>
      rcases Nat.lt_trichotomy a.toNat b.toNat with h | h | h
      · exact Or.inl (by simp [charListLt, h])
      · have hab : a = b := Char.eq_of_val_eq (UInt32.ext h)
        rcases ih bs with h' | h' | h'
        · exact Or.inl (by simp [charListLt, h, h'])
        · exact Or.inr (Or.inl (by rw [hab, h']))
        · exact Or.inr (Or.inr (by simp [charListLt, h.symm, h']))
      · exact Or.inr (Or.inr (by simp [charListLt, h]))

theorem charListLt_nlt_trans {a b c : List Char}
    (h1 : charListLt a b = false) (h2 : charListLt b c = false) :
    charListLt a c = false := by
  cases hac : charListLt a c with
  | false => rfl
  | true =>
    exfalso
    rcases charListLt_total a b with h | h | h
    · simp [h] at h1
    · subst h; simp [hac] at h2
    · have := charListLt_trans _ _ _ h hac
      simp [this] at h2

theorem strLt_irrefl (s : String) : strLt s s = false :=
  charListLt_irrefl s.data

theorem strLt_trans {a b c : String} (h1 : strLt a b = true)
    (h2 : strLt b c = true) : strLt a c = true :=
  charListLt_trans _ _ _ h1 h2

theorem strLt_asymm {a b : String} (h : strLt a b = true) :
    strLt b a = false := by
  cases hc : strLt b a with
  | false => rfl
  | true =>
    have := charListLt_trans _ _ _ h hc
    simp [charListLt_irrefl] at this

theorem strLt_nlt_trans {a b c : String} (h1 : strLt a b = false)
    (h2 : strLt b c = false) : strLt a c = false :=
  charListLt_nlt_trans h1 h2

/-! ## General lemmas: `listMax?` computes a maximum -/

theorem foldl_maxStep_some (lt : α → α → Bool) :
    ∀ (l : List α) (a : α), ∃ m, l.foldl (maxStep lt) (some a) = some m := by
  intro l
  induction l with
  | nil => intro a; exact ⟨a, rfl⟩
  | cons x xs ih =>
    intro a
    simp only [List.foldl_cons, maxStep]
    exact ih _

theorem foldl_maxStep_spec (lt : α → α → Bool)
    (hirr : ∀ a, lt a a = false)
    (hasym : ∀ a b, lt a b = true → lt b a = false)
    (hntr : ∀ {a b c}, lt a b = false → lt b c = false → lt a c = false) :
    ∀ (l : List α) (a : α),
      ∃ m, l.foldl (maxStep lt) (some a) = some m ∧
        (m = a ∨ m ∈ l) ∧ lt m a = false ∧ ∀ x ∈ l, lt m x = false := by
  intro l
  induction l with
  | nil => intro a; exact ⟨a, rfl, Or.inl rfl, hirr a, by simp⟩
  | cons x xs ih =>
    intro a
    simp only [List.foldl_cons, maxStep]
    cases h : lt a x with
    | true =>
      obtain ⟨m, hm, hmem, hma, hall⟩ := ih x
      rw [if_pos rfl]
      refine ⟨m, hm, ?_, hntr hma (hasym _ _ h), ?_⟩
      · rcases hmem with rfl | hm'
        · exact Or.inr (List.mem_cons_self _ _)
        · exact Or.inr (List.mem_cons_of_mem _ hm')
      · intro y hy
        rcases List.mem_cons.mp hy with rfl | hy'
        · exact hma
        · exact hall y hy'
    | false =>
      obtain ⟨m, hm, hmem, hma, hall⟩ := ih a
      rw [if_neg (by simp)]
      refine ⟨m, hm, ?_, hma, ?_⟩
      · rcases hmem with rfl | hm'
        · exact Or.inl rfl
        · exact Or.inr (List.mem_cons_of_mem _ hm')
      · intro y hy
        rcases List.mem_cons.mp hy with rfl | hy'
        · exact hntr hma h
        · exact hall y hy'

theorem listMax?_spec (lt : α → α → Bool)
    (hirr : ∀ a, lt a a = false)
    (hasym : ∀ a b, lt a b = true → lt b a = false)
    (hntr : ∀ {a b c}, lt a b = false → lt b c = false → lt a c = false)
    (l : List α) (m : α) (h : listMax? lt l = some m) :
    m ∈ l ∧ ∀ x ∈ l, lt m x = false := by
  cases l with
  | nil => simp [listMax?] at h
  | cons x xs =>
    obtain ⟨m', hm', hmem, hma, hall⟩ := foldl_maxStep_spec lt hirr hasym hntr xs x
    unfold listMax? at h
    simp only [List.foldl_cons, maxStep] at h
    rw [hm'] at h
    obtain rfl : m' = m := by injection h
    constructor
    · rcases hmem with rfl | hm2
      · exact List.mem_cons_self _ _
      · exact List.mem_cons_of_mem _ hm2
    · intro y hy
      rcases List.mem_cons.mp hy with rfl | hy2
      · exact hma
      · exact hall y hy2

theorem listMax?_eq_none {lt : α → α → Bool} {l : List α}
    (h : listMax? lt l = none) : l = [] := by
  cases l with
  | nil => rfl
  | cons x xs =>
    obtain ⟨m, hm⟩ := foldl_maxStep_some lt xs x
    unfold listMax? at h
    simp only [List.foldl_cons, maxStep] at h
    rw [hm] at h
    cases h

/-! ## General lemmas: `dedup`, `sortBy`, counting -/

theorem count_add_filter_ne [DecidableEq α] (x : α) (l : List α) :
    l.count x + (l.filter (fun y => y ≠ x)).length = l.length := by
  induction l with
  | nil => rfl
  | cons y ys ih =>
    by_cases h : y = x
    · simp [List.count_cons, List.filter_cons, h] at ih ⊢; omega
    · simp [List.count_cons, List.filter_cons, h] at ih ⊢; omega

theorem mem_of_mem_dedup [DecidableEq α] :
    ∀ (l : List α), ∀ x ∈ dedup l, x ∈ l := by
  intro l
  induction l using dedup.induct with
  | case1 => intro x hx; simp [dedup] at hx
  | case2 y ys ih =>
    intro x hx
    rw [dedup] at hx
    rcases List.mem_cons.mp hx with rfl | hx'
    · exact List.mem_cons_self _ _
    · exact List.mem_cons_of_mem _ (List.mem_of_mem_filter (ih x hx'))

theorem dedup_count_sum [DecidableEq α] :
    ∀ (l : List α), ((dedup l).map (fun g => l.count g)).sum = l.length := by
  intro l
  induction l using dedup.induct with
  | case1 => simp [dedup]
  | case2 y ys ih =>
    rw [dedup]
    simp only [List.map_cons, List.sum_cons]
    have hmap :
        (dedup (ys.filter (fun z => z ≠ y))).map (fun g => (y :: ys).count g) =
          (dedup (ys.filter (fun z => z ≠ y))).map
            (fun g => (ys.filter (fun z => z ≠ y)).count g) := by
      apply List.map_congr_left
      intro g hg
      have hgf := mem_of_mem_dedup _ g hg
      have hgy : g ≠ y := by
        have := List.of_mem_filter hgf
        simpa using this
      rw [List.count_cons_of_ne hgy, List.count_filter (by simpa using hgy)]
    rw [hmap, ih]
    have hc := count_add_filter_ne y ys
    simp only [List.count_cons_self, List.length_cons]
    omega

theorem dedup_cons_ne_nil [DecidableEq α] (x : α) (l : List α) :
    dedup (x :: l) ≠ [] := by
  rw [dedup]
  simp

theorem mem_insertSorted (le : α → α → Bool) (x y : α) :
    ∀ l, y ∈ insertSorted le x l ↔ y = x ∨ y ∈ l := by
  intro l
  induction l with
  | nil => simp [insertSorted]
  | cons z zs ih =>
    simp only [insertSorted]
    cases le x z with
    | true => simp [List.mem_cons]
    | false => simp [List.mem_cons, ih]; tauto

theorem mem_sortBy (le : α → α → Bool) (y : α) :
    ∀ l, y ∈ sortBy le l ↔ y ∈ l := by
  intro l
  induction l with
  | nil => simp [sortBy]
  | cons z zs ih =>
    simp only [sortBy, mem_insertSorted, ih, List.mem_cons]

/-! ## General lemmas: padded patient-number strings -/

set_option maxRecDepth 10000 in
set_option maxHeartbeats 2000000 in
theorem padSuffix_toInt :
    ∀ n, n < 1000 → charsToInt? (("P" ++ padNum 3 n).data.drop 1) = some ((n : Int)) := by
  decide

set_option maxRecDepth 10000 in
set_option maxHeartbeats 2000000 in
theorem padNum_lt_succ :
    ∀ n, n < 999 → strLt ("P" ++ padNum 3 n) ("P" ++ padNum 3 (n + 1)) = true := by
  decide

theorem pyFormat03d_natCast (k : Nat) : pyFormat03d (k : Int) = padNum 3 k := by
  unfold pyFormat03d
  rw [if_neg (by exact not_lt.mpr (Int.natCast_nonneg k))]
  simp

/-! ## Structure lemmas for the booking transaction -/

theorem resolvePatient_agenda {db : DB} {nm : String}
    {ad ph : Option String} {pn : String} {db' : DB} {b : Bool}
    (h : resolvePatient db nm ad ph = some (pn, db', b)) :
    db'.agenda = db.agenda := by
  unfold resolvePatient at h
  cases hf : db.patients.find? (fun p => p.name == nm) with
  | some p =>
    simp only [hf, Option.some.injEq, Prod.mk.injEq] at h
    obtain ⟨h1, h2, h3⟩ := h
    rw [← h2]
  | none =>
    simp only [hf] at h
    cases hn : nextPatientNumber db.patients with
    | none => rw [hn] at h; exact Option.noConfusion h
    | some pn' =>
      simp only [hn, Option.some.injEq, Prod.mk.injEq] at h
      obtain ⟨h1, h2, h3⟩ := h
      rw [← h2]

theorem resolveType_agenda (db : DB) (t : String) :
    (resolveType db t).2.agenda = db.agenda := by
  unfold resolveType
  cases hf : db.appointment_types.find? (fun x => x.name == t) <;> simp [hf]

theorem createAppointmentTx_spec {db : DB} {a : BookArgs}
    {e : AgendaEntry} {db' : DB}
    (h : createAppointmentTx db a = some (e, db')) :
    ∃ st, parseTimeOpt a.start_time = some st ∧
      e.start_hour = st ∧
      e.end_hour = (((st : Int) + a.duration).emod 1440).toNat ∧
      e.id = nextAgendaId db.agenda := by
  unfold createAppointmentTx at h
  cases hp : resolvePatient db a.patient_name a.patient_address a.patient_phone with
  | none => rw [hp] at h; exact Option.noConfusion h
  | some tup =>
    obtain ⟨pn, db1, flag⟩ := tup
    simp only [hp] at h
    rcases ht : resolveType db1 a.appointment_type with ⟨tn, db2⟩
    simp only [ht] at h
    cases hd : parseDateOpt a.appointment_date with
    | none => simp only [hd] at h; exact Option.noConfusion h
    | some d =>
      simp only [hd] at h
      cases hst : parseTimeOpt a.start_time with
      | none => simp only [hst] at h; exact Option.noConfusion h
      | some st =>
        simp only [hst, Option.some.injEq, Prod.mk.injEq] at h
        obtain ⟨he, hdb⟩ := h
        have hag : db2.agenda = db.agenda := by
          have h2 : db2.agenda = db1.agenda := by
            have := resolveType_agenda db1 a.appointment_type
            rw [ht] at this
            exact this
          rw [h2, resolvePatient_agenda hp]
        refine ⟨st, rfl, ?_, ?_, ?_⟩
        · rw [← he]
        · rw [← he]
        · rw [← he]
          simpa using congrArg nextAgendaId hag

theorem create_appointment_some {conn : Bool} {db : DB} {a : BookArgs}
    {e : AgendaEntry} {db' : DB}
    (h : create_appointment conn db a = (some e, db')) :
    createAppointmentTx db a = some (e, db') := by
  unfold create_appointment at h
  by_cases hc : conn = false
  · rw [if_pos hc] at h
    simp at h
  · rw [if_neg hc] at h
    cases htx : createAppointmentTx db a with
    | none => rw [htx] at h; simp at h
    | some p =>
      obtain ⟨e2, db2⟩ := p
      rw [htx] at h
      simp only [Prod.mk.injEq, Option.some.injEq] at h
      rw [h.1, h.2]

/-! ## Claim theorems -/

/-- C1: the booking operation is atomic — whenever `create_appointment`
returns the failure value (any step of the workflow failed), the
database state after the call equals the state before it: no new
patient, appointment-type or agenda row persists. -/
theorem create_appointment_atomic (conn : Bool) (db : DB) (a : BookArgs)
    (h : (create_appointment conn db a).1 = none) :
    (create_appointment conn db a).2 = db := by
  by_cases hc : conn = false
  · simp [create_appointment, hc]
  · cases htx : createAppointmentTx db a with
    | none => simp [create_appointment, hc, htx]
    | some p =>
      obtain ⟨e, db2⟩ := p
      simp [create_appointment, hc, htx] at h

/-- Witness for C1: a booking whose date parse fails leaves the
database untouched. -/
theorem create_appointment_atomic_witness :
    (create_appointment true DB.empty noDateArgs).1 = none ∧
    (create_appointment true DB.empty noDateArgs).2 = DB.empty :=
  ⟨by decide, create_appointment_atomic true DB.empty noDateArgs (by decide)⟩

/-- C2: a successful booking assigns the new agenda row the id
`previous_max_id + 1`, and id `1` when the agenda table was empty. -/
theorem create_appointment_id_allocation (db : DB) (a : BookArgs)
    (e : AgendaEntry) (db' : DB)
    (h : create_appointment true db a = (some e, db')) :
    (db.agenda = [] → e.id = 1) ∧
    (∀ m : Int, agendaMaxId db.agenda = some m → e.id = m + 1) := by
  obtain ⟨st, hst, hsh, heh, hid⟩ := createAppointmentTx_spec (create_appointment_some h)
  constructor
  · intro hemp
    rw [hid, hemp]
    rfl
  · intro m hm
    rw [hid]
    unfold nextAgendaId
    rw [hm]
    by_cases h0 : m = 0
    · subst h0; simp
    · simp [h0]

/-- Witness for C2: booking against an agenda whose maximum id is 41
creates the entry with id 42. -/
theorem create_appointment_id_allocation_witness :
    (create_appointment true dbId41 stdArgs).1 = some entryId42 ∧
    entryId42.id = 41 + 1 := by
  refine ⟨by decide, ?_⟩
  exact (create_appointment_id_allocation dbId41 stdArgs entryId42 dbId41'
    (by decide)).2 41 (by decide)

/-- C3: patient-number allocation yields `"P001"` on an empty patients
table, and `"P038"` when the current maximum patient number is
`"P037"`. -/
theorem next_patient_number_first_and_successor (patients : List Patient) :
    (patients = [] → nextPatientNumber patients = some "P001") ∧
    (lastPatientNumber patients = some "P037" →
      nextPatientNumber patients = some "P038") := by
  constructor
  · intro h; subst h; rfl
  · intro h
    unfold nextPatientNumber
    rw [h]
    decide

/-- Witness for C3 at the empty table and at a table whose maximum is
`"P037"`. -/
theorem next_patient_number_witness :
    nextPatientNumber ([] : List Patient) = some "P001" ∧
    nextPatientNumber dbP037.patients = some "P038" :=
  ⟨(next_patient_number_first_and_successor []).1 rfl,
   (next_patient_number_first_and_successor dbP037.patients).2 (by decide)⟩

/-- C7: a successful booking stores as `end_hour` the time of day
`start_hour + duration` minutes (wrapping at midnight, as
`(start_dt + timedelta(minutes=duration)).time()` does); without wrap
it is literally `start_hour + duration`. -/
theorem create_appointment_end_hour (db : DB) (a : BookArgs)
    (e : AgendaEntry) (db' : DB) (st : Nat)
    (h : create_appointment true db a = (some e, db'))
    (hst : parseTimeOpt a.start_time = some st) :
    e.start_hour = st ∧
    (e.end_hour : Int) = ((st : Int) + a.duration).emod 1440 ∧
    ((st : Int) + a.duration < 1440 → 0 ≤ (st : Int) + a.duration →
      (e.end_hour : Int) = (st : Int) + a.duration) := by
  obtain ⟨st', hst', hsh, heh, hid⟩ := createAppointmentTx_spec (create_appointment_some h)
  have hs : st' = st := by
    have := hst'.symm.trans hst
    injection this
  rw [hs] at hsh heh
  refine ⟨hsh, ?_, ?_⟩
  · rw [heh]
    exact Int.toNat_of_nonneg (Int.emod_nonneg _ (by norm_num))
  · intro hlt hge
    rw [heh]
    rw [show ((st : Int) + a.duration).emod 1440 = (st : Int) + a.duration from
      Int.emod_eq_of_lt hge hlt]
    exact Int.toNat_of_nonneg hge

/-- Witness for C7: booking at 09:30 for 45 minutes yields
`end_hour = 10:15`. -/
theorem create_appointment_end_hour_witness :
    (entryC7.end_hour : Int) = ((570 : Int) + 45).emod 1440 ∧
    formatTime entryC7.end_hour = "10:15" :=
  ⟨(create_appointment_end_hour DB.empty argsC7 entryC7 dbC7' 570
      (by decide) (by decide)).2.1,
   by decide⟩

/-- C4 counterexample: a call with an empty `patient_name` and a
negative `duration` is not rejected by any validation — it succeeds
and creates a patient row and an agenda row. -/
theorem create_appointment_no_validation_counterexample :
    (create_appointment true DB.empty invalidArgs).1.isSome = true ∧
    (create_appointment true DB.empty invalidArgs).2.patients.length = 1 ∧
    (create_appointment true DB.empty invalidArgs).2.agenda.length = 1 ∧
    invalidArgs.duration ≤ 0 ∧ invalidArgs.patient_name = "" := by
  decide

/-- C4 amended: `create_appointment` performs no validation of
`duration` or `patient_name`: for every duration (including
non-positive ones) and every name (including the empty string), a call
with a ready connection and parseable date and time succeeds,
creating the rows. -/
theorem create_appointment_no_input_validation (dur : Int) (name : String) :
    (create_appointment true DB.empty
      { patient_name := name, appointment_date := some "2025-07-02",
        start_time := some "09:30", duration := dur }).1.isSome = true := rfl

/-- C5 counterexample: once the numeric suffix has passed 999, the
string-order maximum of the `patients` table stays `P999`, so the
allocator computes `P1000` again even though `P1000` is already
allocated, and a booking for a new patient inserts a duplicate
patient number. -/
theorem allocation_reuse_counterexample :
    nextPatientNumber dbPastP999.patients = some "P1000" ∧
    "P1000" ∈ dbPastP999.patients.map (fun p => p.patient_number) ∧
    ((create_appointment true dbPastP999 carolArgs).2.patients.map
        (fun p => p.patient_number)).count "P1000" = 2 := by
  decide

/-- C5 amended: the agenda-id sequence is strictly monotonic and never
reused, for every database state; the patient-number sequence is fresh
and bounds all existing numbers as long as the current maximum is a
three-digit `P`-number below `P999` — past that point the property
fails (see the counterexample). -/
theorem allocation_monotone_fresh :
    (∀ (l : List AgendaEntry), ∀ e ∈ l, e.id < nextAgendaId l) ∧
    (∀ (patients : List Patient) (n : Nat),
      lastPatientNumber patients = some ("P" ++ padNum 3 n) → n < 999 →
      nextPatientNumber patients = some ("P" ++ padNum 3 (n + 1)) ∧
      ("P" ++ padNum 3 (n + 1)) ∉ patients.map (fun p => p.patient_number) ∧
      ∀ pn ∈ patients.map (fun p => p.patient_number),
        strLt ("P" ++ padNum 3 (n + 1)) pn = false) := by
  constructor
  · intro l e he
    cases hm : agendaMaxId l with
    | none =>
      have hmap : l.map (fun x => x.id) = [] := listMax?_eq_none hm
      rw [List.map_eq_nil_iff] at hmap
      subst hmap
      cases he
    | some m =>
      have hspec := listMax?_spec (fun a b => decide (a < b))
        (fun a => by simp)
        (fun a b h => by simp at h ⊢; omega)
        (fun {a b c} h1 h2 => by simp at h1 h2 ⊢; omega)
        _ m hm
      have hle : e.id ≤ m := by
        have := hspec.2 e.id (List.mem_map_of_mem _ he)
        simp at this
        omega
      unfold nextAgendaId
      rw [hm]
      by_cases h0 : m = 0
      · subst h0; simp; omega
      · simp [h0]; omega
  · intro patients n hmax hn
    have hnext : nextPatientNumber patients = some ("P" ++ padNum 3 (n + 1)) := by
      have hA := padSuffix_toInt n (by omega)
      simp only [nextPatientNumber, hmax, hA]
      rw [show ((n : Nat) : Int) + 1 = (((n + 1 : Nat)) : Int) by push_cast; ring]
      rw [pyFormat03d_natCast]
    have hspec := listMax?_spec strLt strLt_irrefl
      (fun a b h => strLt_asymm h)
      (fun {a b c} h1 h2 => strLt_nlt_trans h1 h2)
      _ _ hmax
    have hlt := padNum_lt_succ n hn
    refine ⟨hnext, ?_, ?_⟩
    · intro hmem
      have hbound := hspec.2 _ hmem
      rw [hbound] at hlt
      cases hlt
    · intro pn hpn
      have h1 := hspec.2 pn hpn
      cases hcase : strLt ("P" ++ padNum 3 (n + 1)) pn with
      | false => rfl
      | true =>
        have h2 := strLt_trans hlt hcase
        rw [h1] at h2
        cases h2

/-- Witness for the amended C5 at concrete states: the agenda with id
41 and the patients table with maximum `P037`. -/
theorem allocation_monotone_fresh_witness :
    (∀ e ∈ dbId41.agenda, e.id < nextAgendaId dbId41.agenda) ∧
    nextPatientNumber dbP037.patients = some ("P" ++ padNum 3 38) ∧
    ("P" ++ padNum 3 38) ∉ dbP037.patients.map (fun p => p.patient_number) := by
  have h := allocation_monotone_fresh
  have hp := h.2 dbP037.patients 37 (by decide) (by decide)
  exact ⟨h.1 dbId41.agenda, hp.1, hp.2.1⟩

/-- C6: calling the patient filter with neither `patient_name` nor
`patient_number` supplied, or the type filter with neither
`appointment_type` nor `appointment_number` supplied, returns the
failure value and issues no database query. -/
theorem filters_require_discriminator (conn : Bool) (db : DB)
    (pname pnum ty tynum : Option String) (lim : Option Nat) :
    (pyTruthy pname = false → pyTruthy pnum = false →
      retrieve_data_patient conn db pname pnum = (none, 0)) ∧
    (pyTruthy ty = false → pyTruthy tynum = false →
      retrieve_data_appointmentType conn db ty tynum lim = (none, 0)) := by
  constructor
  · intro h1 h2
    unfold retrieve_data_patient
    rw [if_pos (by simp [h1, h2])]
  · intro h1 h2
    unfold retrieve_data_appointmentType
    rw [if_pos (by simp [h1, h2])]

/-- Witness for C6 with both discriminators absent. -/
theorem filters_require_discriminator_witness :
    retrieve_data_patient true DB.empty none none = (none, 0) ∧
    retrieve_data_appointmentType true DB.empty none none none = (none, 0) :=
  ⟨(filters_require_discriminator true DB.empty none none none none none).1 rfl rfl,
   (filters_require_discriminator true DB.empty none none none none none).2 rfl rfl⟩

theorem runDateQuery_branch (lim : Option Int) (rows : List FilterRow)
    (mk : List FilterRow → DateResult) :
    (runDateQuery lim rows mk).2.2 ≠ some DateFailBranch.atLeastOneMissing := by
  unfold runDateQuery
  cases lim with
  | none => simp
  | some n => by_cases h : n < 0 <;> simp [h]

/-- C10: `retrieve_data_date` requires a parseable
`date_appointment_start`: with it absent (whatever the other
arguments, including calls supplying only `date_appointment_end`) the
call fails with no query issued, and the explicit `at least one of the
two dates` check is never the branch that reports any failure. -/
theorem retrieve_data_date_requires_start (conn : Bool) (db : DB)
    (dend lim : Option String) :
    ((retrieve_data_date conn db none dend lim).1 = none ∧
     (retrieve_data_date conn db none dend lim).2.1 = 0) ∧
    ∀ ds : Option String,
      (retrieve_data_date conn db ds dend lim).2.2 ≠
        some DateFailBranch.atLeastOneMissing := by
  constructor
  · by_cases hc : conn = false
    · simp [retrieve_data_date, hc]
    · simp [retrieve_data_date, hc, parseDateOpt]
  · intro ds
    unfold retrieve_data_date
    by_cases hc : conn = false
    · simp [hc]
    · rw [if_neg hc]
      split
      · simp
      · rename_i d1 hp
        have hts : pyTruthy ds = true := by
          cases ds with
          | none => exact Option.noConfusion hp
          | some s =>
            simp only [pyTruthy, ne_eq, decide_eq_true_eq]
            intro hse
            subst hse
            exact Option.noConfusion
              ((by decide : parseDateStr "" = (none : Option Date)).symm.trans hp)
        split
        · simp
        · split
          · simp
          · rw [if_neg (by simp [hts])]
            split
            · exact runDateQuery_branch _ _ _
            · split
              · simp
              · exact runDateQuery_branch _ _ _

/-- Witness for C10: a call that supplies only the end date fails
with no query issued. -/
theorem retrieve_data_date_requires_start_witness :
    (retrieve_data_date true DB.empty none (some "2025-07-02") none).1 = none ∧
    (retrieve_data_date true DB.empty none (some "2025-07-02") none).2.1 = 0 ∧
    (retrieve_data_date true DB.empty none (some "2025-07-02") none).2.2 ≠
      some DateFailBranch.atLeastOneMissing :=
  ⟨(retrieve_data_date_requires_start true DB.empty (some "2025-07-02") none).1.1,
   (retrieve_data_date_requires_start true DB.empty (some "2025-07-02") none).1.2,
   (retrieve_data_date_requires_start true DB.empty (some "2025-07-02") none).2 none⟩

theorem buildWeekSummary_appointments (db : DB) (ws we : Date) :
    (buildWeekSummary db ws we).appointments =
      sortBy (fun a b =>
          dateLT a.appointment_date b.appointment_date ||
            (a.appointment_date == b.appointment_date && a.start_hour ≤ b.start_hour))
        ((db.agenda.filter (fun e =>
            dateLE ws e.appointment_date && dateLE e.appointment_date we)).map
          (joinWeekRow db)) := rfl

/-- C8: with an explicit start date, `get_week_summary` resolves the
7-day inclusive window `[d, d + 6]`: it reports `week_start = d` and
`week_end = d + 6 days`, and every returned appointment is dated
inside the window. -/
theorem get_week_summary_window (db : DB) (cy : Int) (s : String) (d : Date)
    (wn : Option Int) (yr : Option Int) (h : parseDateStr s = some d) :
    (get_week_summary true db cy (some s) wn yr).map (fun r => r.week_start) =
      some (formatDate d) ∧
    (get_week_summary true db cy (some s) wn yr).map (fun r => r.week_end) =
      some (formatDate (addDays d 6)) ∧
    ∀ r, get_week_summary true db cy (some s) wn yr = some r →
      ∀ a ∈ r.appointments,
        dateLE d a.appointment_date = true ∧
        dateLE a.appointment_date (addDays d 6) = true := by
  have hres : get_week_summary true db cy (some s) wn yr =
      some (buildWeekSummary db d (addDays d 6)) := by
    unfold get_week_summary
    rw [if_neg (by simp)]
    simp only [h]
  refine ⟨by rw [hres]; rfl, by rw [hres]; rfl, ?_⟩
  intro r hr a ha
  rw [hres] at hr
  injection hr with hr
  subst hr
  rw [buildWeekSummary_appointments] at ha
  rw [mem_sortBy] at ha
  obtain ⟨e, he, rfl⟩ := List.mem_map.mp ha
  have := List.of_mem_filter he
  simp only [Bool.and_eq_true] at this
  exact ⟨this.1, this.2⟩

/-- Witness for C8 at the date of the spec's example. -/
theorem get_week_summary_window_witness :
    (get_week_summary true DB.empty 2025 (some "2025-07-02") none none).map
      (fun r => r.week_start) = some "2025-07-02" ∧
    (get_week_summary true DB.empty 2025 (some "2025-07-02") none none).map
      (fun r => r.week_end) = some "2025-07-08" := by
  have h := get_week_summary_window DB.empty 2025 "2025-07-02" ⟨2025, 7, 2⟩
    none none (by decide)
  refine ⟨?_, ?_⟩
  · rw [h.1]; decide
  · rw [h.2.1]; decide

theorem avg_buckets {K : Type _} [DecidableEq K] (keys : List K) :
    (keys = [] → orZero (avgGroupCount keys) = 0) ∧
    (keys ≠ [] →
      orZero (avgGroupCount keys) =
        round2 ((keys.length : Rat) / ((dedup keys).length : Rat))) := by
  constructor
  · intro h; subst h; simp [avgGroupCount, dedup, orZero]
  · intro h
    cases hk : keys with
    | nil => exact absurd hk h
    | cons x xs =>
      subst hk
      have hne := dedup_cons_ne_nil x xs
      unfold avgGroupCount
      cases hd : dedup (x :: xs) with
      | nil => exact absurd hd hne
      | cons g gs =>
        simp only [orZero]
        rw [← hd, dedup_count_sum]

/-- C9 counterexample: with one appointment dated the day after
`today` and none earlier, zero appointments lie in the trailing
30-day window `[today - 30, today]`, yet `daily_average` is `1`, not
`0` — the SQL filter `appointment_date >= CURRENT_DATE - 30 days` has
no upper bound, so future-dated rows qualify. -/
theorem agenda_summary_future_counterexample :
    (db9.agenda.filter (fun e =>
        dateLE (subDays t9 30) e.appointment_date &&
          dateLE e.appointment_date t9)).length = 0 ∧
    ∃ r, get_agenda_summary true db9 t9 = some r ∧ r.daily_average = 1 := by
  refine ⟨by decide, ⟨_, rfl, ?_⟩⟩
  show orZero (avgGroupCount (dailyKeys db9 t9)) = 1
  rw [(by decide : dailyKeys db9 t9 = [(⟨2025, 7, 3⟩ : Date)])]
  simp [avgGroupCount, dedup, orZero, round2]
  have hf : ⌊(2⁻¹ : Rat)⌋ = 0 := by
    rw [Int.floor_eq_iff]
    norm_num
  rw [hf]
  norm_num

/-- C9 amended: each rolling average is computed only over non-empty
buckets — its denominator is the number of distinct days, weeks or
months actually containing a qualifying appointment — and equals `0`
(never a missing value) when no appointment qualifies; but the
qualifying filter is `appointment_date >= today - window` with no
upper bound, so future-dated appointments qualify too (see the
counterexample). -/
theorem agenda_summary_averages (db : DB) (today : Date) (r : AgendaSummary)
    (h : get_agenda_summary true db today = some r) :
    ((dailyKeys db today = [] → r.daily_average = 0) ∧
     (dailyKeys db today ≠ [] → r.daily_average =
        round2 (((dailyKeys db today).length : Rat) /
          ((dedup (dailyKeys db today)).length : Rat)))) ∧
    ((weeklyKeys db today = [] → r.weekly_average = 0) ∧
     (weeklyKeys db today ≠ [] → r.weekly_average =
        round2 (((weeklyKeys db today).length : Rat) /
          ((dedup (weeklyKeys db today)).length : Rat)))) ∧
    ((monthlyKeys db today = [] → r.monthly_average = 0) ∧
     (monthlyKeys db today ≠ [] → r.monthly_average =
        round2 (((monthlyKeys db today).length : Rat) /
          ((dedup (monthlyKeys db today)).length : Rat)))) := by
  unfold get_agenda_summary at h
  rw [if_neg (by simp)] at h
  injection h with h
  subst h
  exact ⟨⟨(avg_buckets _).1, (avg_buckets _).2⟩,
    ⟨(avg_buckets _).1, (avg_buckets _).2⟩,
    ⟨(avg_buckets _).1, (avg_buckets _).2⟩⟩

/-- Witness for the amended C9: on the empty database every average
reports 0. -/
theorem agenda_summary_averages_witness :
    ∃ r, get_agenda_summary true DB.empty t9 = some r ∧
      r.daily_average = 0 ∧ r.weekly_average = 0 ∧ r.monthly_average = 0 := by
  refine ⟨_, rfl, ?_, ?_, ?_⟩
  · exact ((agenda_summary_averages DB.empty t9 _ rfl).1).1 (by decide)
  · exact ((agenda_summary_averages DB.empty t9 _ rfl).2.1).1 (by decide)
  · exact ((agenda_summary_averages DB.empty t9 _ rfl).2.2).1 (by decide)

end Agenda
